import Mathlib

/-!
Verification of the StreamBot playback orchestration core (src/config.ts,
which concatenates the configuration module and the main bot module).
The TypeScript source is modelled as executable Lean definitions: global
mutable state becomes explicit state passing, collaborator calls
(the yt-dlp downloader, the YouTube metadata lookup, the Twitch playlist
lookup, the voice transport and the ffmpeg pipeline) become explicit
environment values, and the observable behaviour of one command or one
playback attempt is a pure function returning the final state together
with the list of notifications sent to the command channel and the list
of side-effect calls made on the collaborators.
-/

namespace StreamBot

/-- JS `String.prototype.includes`: `s.includes(pat)` holds iff `pat`
occurs as a contiguous substring of `s`. -/
def jsIncludes (s pat : String) : Bool :=
  (List.range (s.length + 1)).any (fun i => pat.data.isPrefixOf (s.data.drop i))

/-- Whitespace stripped by JS `String.prototype.trim` (ASCII part plus
NBSP and the BOM; the remaining Unicode space separators never occur in
the configuration values being modelled). -/
def jsWhitespace (c : Char) : Bool :=
  c = ' ' || c = '\t' || c = '\n' || c = '\r' || c = '\x0b' || c = '\x0c' ||
  c = '\u00A0' || c = '\uFEFF'

/-- JS `String.prototype.trim`. -/
def jsTrim (s : String) : String :=
  ⟨((s.data.dropWhile jsWhitespace).reverse.dropWhile jsWhitespace).reverse⟩

/-- JS `String.prototype.toUpperCase`, restricted to the ASCII case map
(`Char.toUpper`), which agrees with JS on every character of the valid
codec names being compared against. -/
def jsToUpperCase (s : String) : String :=
  ⟨s.data.map Char.toUpper⟩

/-- config.ts line 6: `VALID_VIDEO_CODECS = ['VP8', 'H264', 'H265', 'VP9', 'AV1']`. -/
def VALID_VIDEO_CODECS : List String := ["VP8", "H264", "H265", "VP9", "AV1"]

/-- config.ts lines 49-57: `parseVideoCodec` trims and upper-cases its
input, returns it when it is a member of `VALID_VIDEO_CODECS`, and
returns `"H264"` otherwise.  (The TS return-type annotation omits VP9
and AV1, but at runtime those values pass through unchanged.) -/
def parseVideoCodec (value : String) : String :=
  let value := jsToUpperCase (jsTrim value)
  if VALID_VIDEO_CODECS.contains value then value else "H264"

/-- The subset of the configuration record (config.ts lines 8-47) that the
playback core reads. -/
structure Config where
  guildId : String
  videoChannelId : String
  cmdChannelId : String
  width : Nat
  height : Nat
deriving DecidableEq, Repr

/-- One rendition returned by the twitch-m3u8 collaborator (`getStream` /
`getVod`).  Modelled from its use in `getTwitchStreamUrl` (config.ts lines
1076-1103): only the `resolution` and `url` fields are consulted; the JS
truthiness test `vod?.url` is modelled as `url ≠ ""`. -/
structure TwitchStream where
  resolution : String
  url : String
deriving DecidableEq, Repr

/-- The target rendition string `` `${config.width}x${config.height}` ``. -/
def targetResolution (cfg : Config) : String :=
  toString cfg.width ++ "x" ++ toString cfg.height

/-- The rendition choice made on both branches of `getTwitchStreamUrl`
(config.ts lines 1083 and 1092):
`streams.find(s => s.resolution === target) || streams[0]`.
`find` returns the first matching object (always truthy), so the fallback
`streams[0]` is consulted exactly when no rendition matches. -/
def selectStream (cfg : Config) (streams : List TwitchStream) : Option TwitchStream :=
  match streams.find? (fun s => s.resolution = targetResolution cfg) with
  | some s => some s
  | none => streams.head?

/-- config.ts lines 1076-1103, `getTwitchStreamUrl`.  The two collaborator
calls `getVod` / `getStream` are passed in as `Except` values (`.error`
models the promise rejecting, which the surrounding `try`/`catch` turns
into `null`).  The result is the JS return value: `none` models `null`. -/
def getTwitchStreamUrl (cfg : Config) (url : String)
    (vodLookup streamLookup : Except String (List TwitchStream)) : Option String :=
  if jsIncludes url "/videos/" then
    match vodLookup with
    | .error _ => none
    | .ok vodInfo =>
      match selectStream cfg vodInfo with
      | some v => if v.url ≠ "" then some v.url else none
      | none => none
  else
    match streamLookup with
    | .error _ => none
    | .ok streams =>
      match selectStream cfg streams with
      | some s => if s.url ≠ "" then some s.url else none
      | none => none

/-- The `channelInfo` component of the global `streamStatus` record
(config.ts lines 198-202). -/
structure ChannelInfo where
  guildId : String
  channelId : String
  cmdChannelId : String
deriving DecidableEq, Repr

/-- The global `streamStatus` record (config.ts lines 193-203). -/
structure StreamStatus where
  joined : Bool
  joinsucc : Bool
  playing : Bool
  manualStop : Bool
  channelInfo : ChannelInfo
deriving DecidableEq, Repr

/-- The mutable module state the playback core reads and writes: the
`streamStatus` record plus the `aborted` flag of the current global
`AbortController` (config.ts line 118). -/
structure BotState where
  status : StreamStatus
  ctrlAborted : Bool
deriving DecidableEq, Repr

/-- A message sent to the command channel (via `sendError`, `sendPlaying`,
`sendSuccess`, `sendFinishMessage`, or the Downloading reply / its
failure edit in `playVideo`). -/
inductive Notif where
  | errorMsg (text : String)
  | playingMsg (title : String)
  | successMsg (text : String)
  | finishedMsg
  | downloadProgress (title : String)
  | downloadFailedEdit (title : String)
deriving DecidableEq, Repr

/-- A side-effect call made on a collaborator. -/
inductive Effect where
  | abortController
  | newController
  | joinVoice (guildId channelId : String)
  | pipelineStart (input : String)
  | stopStream
  | leaveVoice
  | unlinkTemp (path : String)
  | downloadCall (src : String)
  | liveUrlCall (src : String)
deriving DecidableEq, Repr

/-- config.ts lines 1049-1074, `cleanupStreamStatus`: early-returns when
`manualStop` is set; otherwise aborts the controller, stops the stream,
leaves voice and resets every status field (`channelInfo` to empty
strings, `manualStop` to `false`). -/
def cleanupStreamStatus (b : BotState) : BotState × List Effect :=
  if b.status.manualStop then (b, [])
  else
    (⟨⟨false, false, false, false, ⟨"", "", ""⟩⟩, true⟩,
     [Effect.abortController, Effect.stopStream, Effect.leaveVoice])

/-- config.ts lines 397-428, the `stop` command case: when not joined it
replies `**Already Stopped!**` and returns; when joined it sets
`manualStop`, aborts the controller, replies with the success message,
stops the stream, leaves voice and resets the joined/joinsucc/playing
flags and `channelInfo` (`manualStop` stays `true`). -/
def stopCommand (b : BotState) : BotState × List Notif × List Effect :=
  if !b.status.joined then
    (b, [Notif.errorMsg "**Already Stopped!**"], [])
  else
    (⟨⟨false, false, false, true, ⟨"", "", ""⟩⟩, true⟩,
     [Notif.successMsg "Stopped playing video."],
     [Effect.abortController, Effect.stopStream, Effect.leaveVoice])

/-- The result of the `youtube.getVideoInfo` collaborator call at
config.ts line 941: `info isLiveContent` models a result whose
`videoDetails.isLiveContent` flag is read, `nullResult` a null/undefined
result (falsy, so the code takes the download branch), `thrown` a
rejected promise (caught by the outer `catch`). -/
inductive VideoInfoResult where
  | info (isLiveContent : Bool)
  | nullResult
  | thrown
deriving DecidableEq, Repr

/-- The result of the awaited `downloadToTempFile` call (config.ts line
969): the temp-file path, or a rejection. -/
inductive DownloadResult where
  | ok (path : String)
  | err (msg : String)
deriving DecidableEq, Repr

/-- How the playback section of one attempt terminates: `naturalEnd` is
ffmpeg ending and `playStream` resolving; `ffmpegError` is the ffmpeg
`error` event (config.ts lines 1003-1008) aborting the controller;
`streamError` is `playStream` rejecting for a non-abort reason (lines
1014-1020); `userStop` is a `stop` command processed at the `playStream`
suspension point while playback is live. -/
inductive PlayPhaseEvent where
  | naturalEnd
  | ffmpegError
  | streamError
  | userStop
deriving DecidableEq, Repr

/-- The environment of one `playVideo` run: the responses of the external
collaborators and the terminal event of the playback section. -/
structure PlayEnv where
  videoInfo : VideoInfoResult
  liveUrl : Option String
  download : DownloadResult
  outcome : PlayPhaseEvent
deriving DecidableEq, Repr

/-- The observable result of one run: final module state, notifications
sent to the command channel (in order), side-effect calls (in order). -/
structure RunResult where
  state : BotState
  notifs : List Notif
  effects : List Effect
deriving DecidableEq, Repr

/-- The source classification test at config.ts line 940:
`videoSource.includes('youtube.com/') || videoSource.includes('youtu.be/')`. -/
def isYouTubeSource (src : String) : Bool :=
  jsIncludes src "youtube.com/" || jsIncludes src "youtu.be/"

/-- The `finally` block of `playVideo` (config.ts lines 1029-1045), run on
every exit path of the `try`: sends the Finished message unless
`manualStop` or the abort signal is set, runs `cleanupStreamStatus`, and
unlinks the temp file when one was downloaded and the source was not a
live YouTube stream. -/
def finishAttempt (tempFilePath : Option String) (isLiveYouTubeStream : Bool)
    (b : BotState) (ns : List Notif) (eff : List Effect) : RunResult :=
  let finishNs := if !b.status.manualStop && !b.ctrlAborted then [Notif.finishedMsg] else []
  let cleaned := cleanupStreamStatus b
  let effUnlink :=
    match tempFilePath with
    | some p => if !isLiveYouTubeStream then [Effect.unlinkTemp p] else []
    | none => []
  ⟨cleaned.1, ns ++ finishNs, eff ++ cleaned.2 ++ effUnlink⟩

/-- config.ts lines 988-1024: the section of `playVideo` after the input
is resolved.  It joins voice, sets `joined`/`playing`/`channelInfo`,
sends the Playing message, aborts the previous controller and creates a
fresh one, starts the ffmpeg pipeline with the resolved input, and then
the playback section terminates by `outcome`; every path falls through
to the `finally` block (`finishAttempt`). -/
def playPhase (cfg : Config) (displayTitle : String) (input : String)
    (tempFilePath : Option String) (isLiveYouTubeStream : Bool)
    (outcome : PlayPhaseEvent) (b : BotState)
    (ns : List Notif) (eff : List Effect) : RunResult :=
  let st1 : StreamStatus :=
    ⟨true, b.status.joinsucc, true, b.status.manualStop,
     ⟨cfg.guildId, cfg.videoChannelId, cfg.cmdChannelId⟩⟩
  let b1 : BotState := ⟨st1, false⟩
  let ns1 := ns ++ [Notif.playingMsg displayTitle]
  let eff1 := eff ++ [Effect.joinVoice cfg.guildId cfg.videoChannelId,
                      Effect.abortController, Effect.newController,
                      Effect.pipelineStart input]
  match outcome with
  | .naturalEnd => finishAttempt tempFilePath isLiveYouTubeStream b1 ns1 eff1
  | .ffmpegError =>
    let b2 : BotState := ⟨b1.status, true⟩
    finishAttempt tempFilePath isLiveYouTubeStream b2 ns1 (eff1 ++ [Effect.abortController])
  | .streamError =>
    let b2 : BotState := ⟨b1.status, true⟩
    finishAttempt tempFilePath isLiveYouTubeStream b2 ns1 (eff1 ++ [Effect.abortController])
  | .userStop =>
    let stopped := stopCommand b1
    finishAttempt tempFilePath isLiveYouTubeStream stopped.1
      (ns1 ++ stopped.2.1) (eff1 ++ stopped.2.2)

/-- config.ts lines 928-1046, `playVideo`: clears `manualStop`, resolves
a YouTube source (live-manifest lookup for live content, yt-dlp download
to a temp file otherwise; non-YouTube sources are fed to ffmpeg as-is),
then runs the playback section; the live-URL-missing and download-error
paths send their error, run `cleanupStreamStatus` and return early, and
every path runs the `finally` block. -/
def playVideo (cfg : Config) (src : String) (title : Option String)
    (env : PlayEnv) (b : BotState) : RunResult :=
  let b0 : BotState := ⟨⟨b.status.joined, b.status.joinsucc, b.status.playing,
                         false, b.status.channelInfo⟩, b.ctrlAborted⟩
  let displayTitle := title.getD src
  if isYouTubeSource src then
    match env.videoInfo with
    | .thrown =>
      let b1 : BotState := ⟨b0.status, true⟩
      let effC := if !b0.ctrlAborted then [Effect.abortController] else []
      finishAttempt none false b1 [] effC
    | .info true =>
      match env.liveUrl with
      | some liveStreamUrl =>
        playPhase cfg displayTitle liveStreamUrl none true env.outcome b0
          [] [Effect.liveUrlCall src]
      | none =>
        let ns := [Notif.errorMsg
          ("Failed to get live stream URL for `" ++ title.getD "YouTube live video" ++ "`.")]
        let cleaned := cleanupStreamStatus b0
        finishAttempt none true cleaned.1 ns ([Effect.liveUrlCall src] ++ cleaned.2)
    | .info false | .nullResult =>
      let dlTitle := title.getD "YouTube video"
      let ns0 := [Notif.downloadProgress dlTitle]
      match env.download with
      | .ok p =>
        playPhase cfg displayTitle p (some p) false env.outcome b0
          ns0 [Effect.downloadCall src]
      | .err _ =>
        let ns := ns0 ++ [Notif.downloadFailedEdit dlTitle]
        let cleaned := cleanupStreamStatus b0
        finishAttempt none false cleaned.1 ns ([Effect.downloadCall src] ++ cleaned.2)
  else
    playPhase cfg displayTitle src none false env.outcome b0 [] []

/-- One entry of the in-memory video catalog (config.ts lines 175-179):
file name with spaces replaced by an underscore, plus its path. -/
structure VideoEntry where
  name : String
  path : String
deriving DecidableEq, Repr

/-- The result of one command case of the `messageCreate` handler:
either it returned early with a reply (`rejected`), or it returned
early after also running `cleanupStreamStatus` (`rejectedAfterCleanup`,
the `ytplay` catch path), or it fell through to `playVideo` with the
given locator and title (`proceeds`).  None of these cases mutates
`streamStatus` before `playVideo` runs. -/
inductive CmdOutcome where
  | rejected (n : Notif)
  | rejectedAfterCleanup (n : Notif)
  | proceeds (src : String) (title : Option String)
deriving DecidableEq, Repr

/-- config.ts lines 250-297, the `play` case: rejected with
`Already joined` while `streamStatus.joined`; otherwise the catalog is
searched (`videos.find(m => m.name == videoname)`) and a miss is
rejected with `Video not found`; a hit proceeds to `playVideo` with the
entry path.  (The optional `respect_video_params` probe only touches
`streamOpts`, never `streamStatus`.) -/
def playCase (st : StreamStatus) (videoname : Option String)
    (videos : List VideoEntry) : CmdOutcome :=
  if st.joined then .rejected (.errorMsg "Already joined")
  else
    match videos.find? (fun m => videoname = some m.name) with
    | none => .rejected (.errorMsg "Video not found")
    | some video => .proceeds video.path videoname

/-- config.ts lines 299-347, the `playlink` case: rejected with
`Already joined` while `streamStatus.joined`; a missing link is
rejected; otherwise the case proceeds to `playVideo` (the
YouTube/Twitch/direct sub-dispatch happens after the guard and mutates
no session state; source classification is re-done inside `playVideo`). -/
def playlinkCase (st : StreamStatus) (link : String) : CmdOutcome :=
  if st.joined then .rejected (.errorMsg "Already joined")
  else if link = "" then .rejected (.errorMsg "Please provide a link.")
  else .proceeds link none

/-- config.ts lines 349-375, the `ytplay` case: there is no
`streamStatus.joined` guard.  An empty title is rejected; a successful
search (`searchResult` holds the page URL and title) proceeds straight
to `playVideo`; a failed search runs `cleanupStreamStatus` and replies
with the failure message. -/
def ytplayCase (_st : StreamStatus) (title : String)
    (searchResult : Option (String × String)) : CmdOutcome :=
  if title = "" then .rejected (.errorMsg "Please provide a video title.")
  else
    match searchResult with
    | some r => .proceeds r.1 (some r.2)
    | none => .rejectedAfterCleanup (.errorMsg "Failed to play video. Please try again.")

/-- config.ts lines 539-576, the `jfplay` case: rejected when the
Jellyfin client is absent; rejected with `Already joined` while
`streamStatus.joined`; a missing item id or a failed stream-info lookup
is rejected; otherwise it proceeds to `playVideo` with the stream URL. -/
def jfplayCase (st : StreamStatus) (jellyfinEnabled : Bool)
    (itemId : Option String) (streamUrl : Option String) : CmdOutcome :=
  if !jellyfinEnabled then .rejected (.errorMsg "Jellyfin integration is not enabled")
  else if st.joined then .rejected (.errorMsg "Already joined")
  else
    match itemId with
    | none => .rejected (.errorMsg "Please provide a Jellyfin item ID")
    | some _ =>
      match streamUrl with
      | none => .rejected (.errorMsg "Failed to get stream information for this item")
      | some u => .proceeds u none

/-- The notifications the spec counts as terminal for one playback
attempt: the Finished message, a success (Stopped) message, an error
reply, or the failure edit of the Downloading message.  The Playing and
Downloading progress messages are not terminal. -/
def isTerminalNotif : Notif → Bool
  | .finishedMsg => true
  | .successMsg _ => true
  | .errorMsg _ => true
  | .downloadFailedEdit _ => true
  | .playingMsg _ => false
  | .downloadProgress _ => false

/-- Number of terminal notifications in a run. -/
def terminalCount (ns : List Notif) : Nat :=
  (ns.filter isTerminalNotif).length

/-- Number of temp-file unlink calls in an effect list. -/
def unlinkCount (eff : List Effect) : Nat :=
  (eff.filter (fun e => match e with | .unlinkTemp _ => true | _ => false)).length

/-- Number of unlink calls for one specific path. -/
def unlinkCountFor (p : String) (eff : List Effect) : Nat :=
  (eff.filter (fun e => e = Effect.unlinkTemp p)).length

/-- Number of pipeline launches (`prepareStream` calls) in a run. -/
def pipelineCount (eff : List Effect) : Nat :=
  (eff.filter (fun e => match e with | .pipelineStart _ => true | _ => false)).length

/-- Number of downloader invocations in a run. -/
def downloadCallCount (eff : List Effect) : Nat :=
  (eff.filter (fun e => match e with | .downloadCall _ => true | _ => false)).length

/-- `some p` iff the attempt takes the download branch and the download
succeeds with temp path `p` (YouTube source classified non-live). -/
def downloadedTemp (src : String) (env : PlayEnv) : Option String :=
  if isYouTubeSource src then
    match env.videoInfo with
    | .info false | .nullResult =>
      match env.download with
      | .ok p => some p
      | .err _ => none
    | .info true | .thrown => none
  else none

/-- Whether the attempt classifies its source as a live YouTube stream. -/
def isLiveAttempt (src : String) (env : PlayEnv) : Bool :=
  isYouTubeSource src &&
    (match env.videoInfo with | .info true => true | _ => false)

/-- Whether the resolution section of `playVideo` succeeds, i.e. the
attempt reaches the voice join and the ffmpeg pipeline. -/
def resolvesInput (src : String) (env : PlayEnv) : Bool :=
  if isYouTubeSource src then
    match env.videoInfo with
    | .thrown => false
    | .info true => env.liveUrl.isSome
    | .info false | .nullResult =>
      match env.download with
      | .ok _ => true
      | .err _ => false
  else true

/-- Whether the attempt takes the yt-dlp download branch of `playVideo`
(YouTube source whose metadata result is non-live or null). -/
def takesDownloadBranch (env : PlayEnv) : Bool :=
  match env.videoInfo with
  | .info false => true
  | .nullResult => true
  | .info true => false
  | .thrown => false

/-- A concrete configuration for the concrete instances below. -/
def cfgEx : Config := ⟨"guild1", "voice1", "cmd1", 1280, 720⟩

/-- The freshly initialised `streamStatus` (config.ts lines 193-203):
all flags false, `channelInfo` holding the configured ids. -/
def freshStatus : StreamStatus :=
  ⟨false, false, false, false, ⟨"guild1", "voice1", "cmd1"⟩⟩

/-- Fresh module state: freshly initialised status, previous controller
aborted. -/
def freshIdle : BotState := ⟨freshStatus, true⟩

/-- A status with an active session (joined and playing). -/
def joinedStatus : StreamStatus :=
  ⟨true, true, true, false, ⟨"guild1", "voice1", "cmd1"⟩⟩

/-- Module state with an active session and a live (unaborted)
controller. -/
def joinedBot : BotState := ⟨joinedStatus, false⟩

/-- Environment: YouTube VOD, download succeeds, playback ends
naturally. -/
def envVodOk : PlayEnv := ⟨.info false, none, .ok "/tmp/a.mp4", .naturalEnd⟩

/-- Environment: YouTube VOD whose download fails. -/
def envVodDlErr : PlayEnv := ⟨.info false, none, .err "network", .naturalEnd⟩

/-- Environment: direct URL (collabs unused), ffmpeg errors out. -/
def envDirectFfmpegErr : PlayEnv := ⟨.nullResult, none, .err "unused", .ffmpegError⟩

/-- The session state at the `downloadToTempFile` suspension point of a
play attempt started from state `b` (config.ts lines 932-969): the only
mutation `playVideo` performs before awaiting the download is clearing
`manualStop`; in particular `joined` is still the value it had when the
play command was accepted, i.e. `false`. -/
def midDownloadState (b : BotState) : BotState :=
  ⟨⟨b.status.joined, b.status.joinsucc, b.status.playing, false,
    b.status.channelInfo⟩, b.ctrlAborted⟩

/-- The rendition chosen by `selectStream` comes from the given list. -/
theorem mem_of_selectStream (cfg : Config) (l : List TwitchStream) (s : TwitchStream)
    (h : selectStream cfg l = some s) : s ∈ l := by
  unfold selectStream at h
  cases hf : l.find? (fun t => t.resolution = targetResolution cfg) with
  | some t =>
    rw [hf] at h
    cases h
    exact List.mem_of_find?_eq_some hf
  | none =>
    rw [hf] at h
    cases l with
    | nil => simp at h
    | cons a t =>
      simp only [List.head?, Option.some.injEq] at h
      subst h
      simp

/-- C8: `parseVideoCodec` is total and case/whitespace-insensitive: when
the trimmed, upper-cased input is one of the five valid codec names it
is returned verbatim, and on every other input `"H264"` is returned. -/
theorem parseVideoCodec_total_spec (s : String) :
    (VALID_VIDEO_CODECS.contains (jsToUpperCase (jsTrim s)) = true →
      parseVideoCodec s = jsToUpperCase (jsTrim s)) ∧
    (VALID_VIDEO_CODECS.contains (jsToUpperCase (jsTrim s)) = false →
      parseVideoCodec s = "H264") := by
  constructor <;> intro h <;>
    simp only [parseVideoCodec, h, if_true, if_false, Bool.false_eq_true, ite_true,
      ite_false, reduceIte]

/-- Witness for C8: a padded lower-case valid codec is normalised and
returned; an unknown codec falls back to `"H264"`. -/
theorem parseVideoCodec_total_spec_witness :
    parseVideoCodec " vp9 " = "VP9" ∧ parseVideoCodec "h266" = "H264" := by
  constructor
  · exact ((parseVideoCodec_total_spec " vp9 ").1 (by decide)).trans (by decide)
  · exact (parseVideoCodec_total_spec "h266").2 (by decide)

/-- C9: a `stop` command processed while `streamStatus.joined` is false
replies `**Already Stopped!**` and changes nothing: the state (including
the abort controller) is returned unchanged and no collaborator call
(abort, stream stop, voice leave) is made. -/
theorem stop_when_not_joined (b : BotState) (h : b.status.joined = false) :
    stopCommand b = (b, [Notif.errorMsg "**Already Stopped!**"], []) := by
  unfold stopCommand
  simp [h]

/-- Witness for C9: the fresh idle state. -/
theorem stop_when_not_joined_witness :
    stopCommand freshIdle = (freshIdle, [Notif.errorMsg "**Already Stopped!**"], []) :=
  stop_when_not_joined freshIdle (by decide)

/-- C5: for every non-empty rendition list the resolver's choice is
defined; the first rendition whose resolution string equals the
configured target is selected when one exists, and otherwise the first
rendition of the list is selected; on both the live and the VOD branch
`getTwitchStreamUrl` returns the selected rendition's URL, so it never
fails solely because no rendition matches the target resolution. -/
theorem twitch_rendition_selection (cfg : Config) (rs : List TwitchStream)
    (hne : rs ≠ []) :
    (selectStream cfg rs).isSome = true ∧
    (∀ s, rs.find? (fun t => t.resolution = targetResolution cfg) = some s →
      selectStream cfg rs = some s ∧ s.resolution = targetResolution cfg ∧ s ∈ rs) ∧
    ((∀ s ∈ rs, s.resolution ≠ targetResolution cfg) →
      selectStream cfg rs = rs.head?) ∧
    (∀ url vodLookup s, jsIncludes url "/videos/" = false →
      selectStream cfg rs = some s → s.url ≠ "" →
      getTwitchStreamUrl cfg url vodLookup (Except.ok rs) = some s.url) ∧
    (∀ url streamLookup s, jsIncludes url "/videos/" = true →
      selectStream cfg rs = some s → s.url ≠ "" →
      getTwitchStreamUrl cfg url (Except.ok rs) streamLookup = some s.url) := by
  refine ⟨?_, ?_, ?_, ?_, ?_⟩
  · unfold selectStream
    cases hf : rs.find? (fun t => t.resolution = targetResolution cfg) with
    | some t => simp
    | none =>
      cases rs with
      | nil => exact absurd rfl hne
      | cons a t => simp
  · intro s hf
    refine ⟨?_, ?_, List.mem_of_find?_eq_some hf⟩
    · unfold selectStream
      rw [hf]
    · have hp := List.find?_some hf
      simpa using hp
  · intro hall
    have hf : rs.find? (fun t => t.resolution = targetResolution cfg) = none := by
      apply List.find?_eq_none.mpr
      intro x hx
      simpa using hall x hx
    unfold selectStream
    rw [hf]
  · intro url vodLookup s hurl hsel hu
    simp [getTwitchStreamUrl, hurl, hsel, hu]
  · intro url streamLookup s hurl hsel hu
    simp [getTwitchStreamUrl, hurl, hsel, hu]

/-- Witness for C5 (the two scenarios of the spec): with renditions
1280x720 and 1920x1080 and target 1280x720 the exact match is chosen;
with only 640x360 the resolver falls back to that entry. -/
theorem twitch_rendition_selection_witness :
    getTwitchStreamUrl cfgEx "https://twitch.tv/somestreamer" (Except.error "na")
      (Except.ok [⟨"1280x720", "u720"⟩, ⟨"1920x1080", "u1080"⟩]) = some "u720" ∧
    getTwitchStreamUrl cfgEx "https://twitch.tv/somestreamer" (Except.error "na")
      (Except.ok [⟨"640x360", "u360"⟩]) = some "u360" := by
  constructor
  · exact (twitch_rendition_selection cfgEx
      [⟨"1280x720", "u720"⟩, ⟨"1920x1080", "u1080"⟩] (by decide)).2.2.2.1
      "https://twitch.tv/somestreamer" (Except.error "na") ⟨"1280x720", "u720"⟩
      (by decide) (by decide) (by decide)
  · exact (twitch_rendition_selection cfgEx [⟨"640x360", "u360"⟩] (by decide)).2.2.2.1
      "https://twitch.tv/somestreamer" (Except.error "na") ⟨"640x360", "u360"⟩
      (by decide) (by decide) (by decide)

/-- C10: `getTwitchStreamUrl` is total with an Option-style result: its
value is either `none` or a non-empty URL taken from the consulted
rendition list; a failed lookup on the consulted branch yields `none`,
as do empty rendition lists — no error propagates to the caller. -/
theorem getTwitchStreamUrl_no_throw (cfg : Config) (url : String)
    (vodLookup streamLookup : Except String (List TwitchStream)) :
    (getTwitchStreamUrl cfg url vodLookup streamLookup = none ∨
      ∃ s : TwitchStream, s.url ≠ "" ∧
        getTwitchStreamUrl cfg url vodLookup streamLookup = some s.url ∧
        ((∃ l, vodLookup = Except.ok l ∧ s ∈ l) ∨
         (∃ l, streamLookup = Except.ok l ∧ s ∈ l))) ∧
    (∀ e, jsIncludes url "/videos/" = true → vodLookup = Except.error e →
      getTwitchStreamUrl cfg url vodLookup streamLookup = none) ∧
    (∀ e, jsIncludes url "/videos/" = false → streamLookup = Except.error e →
      getTwitchStreamUrl cfg url vodLookup streamLookup = none) ∧
    (vodLookup = Except.ok [] → streamLookup = Except.ok [] →
      getTwitchStreamUrl cfg url vodLookup streamLookup = none) := by
  refine ⟨?_, ?_, ?_, ?_⟩
  · by_cases hb : jsIncludes url "/videos/" = true
    · cases vodLookup with
      | error e => exact Or.inl (by simp [getTwitchStreamUrl, hb])
      | ok l =>
        cases hs : selectStream cfg l with
        | none => exact Or.inl (by simp [getTwitchStreamUrl, hb, hs])
        | some s =>
          by_cases hu : s.url = ""
          · exact Or.inl (by simp [getTwitchStreamUrl, hb, hs, hu])
          · exact Or.inr ⟨s, hu, by simp [getTwitchStreamUrl, hb, hs, hu],
              Or.inl ⟨l, rfl, mem_of_selectStream cfg l s hs⟩⟩
    · have hb2 : jsIncludes url "/videos/" = false := by simpa using hb
      cases streamLookup with
      | error e => exact Or.inl (by simp [getTwitchStreamUrl, hb2])
      | ok l =>
        cases hs : selectStream cfg l with
        | none => exact Or.inl (by simp [getTwitchStreamUrl, hb2, hs])
        | some s =>
          by_cases hu : s.url = ""
          · exact Or.inl (by simp [getTwitchStreamUrl, hb2, hs, hu])
          · exact Or.inr ⟨s, hu, by simp [getTwitchStreamUrl, hb2, hs, hu],
              Or.inr ⟨l, rfl, mem_of_selectStream cfg l s hs⟩⟩
  · intro e hb he
    simp [getTwitchStreamUrl, hb, he]
  · intro e hb he
    simp [getTwitchStreamUrl, hb, he]
  · intro h1 h2
    by_cases hb : jsIncludes url "/videos/" = true
    · simp [getTwitchStreamUrl, hb, h1, selectStream]
    · have hb2 : jsIncludes url "/videos/" = false := by simpa using hb
      simp [getTwitchStreamUrl, hb2, h2, selectStream]

/-- Witness for C10: a failing VOD lookup yields `null`, and a failing
live lookup yields `null`, instead of an exception. -/
theorem getTwitchStreamUrl_no_throw_witness :
    getTwitchStreamUrl cfgEx "https://twitch.tv/videos/42"
      (Except.error "boom") (Except.ok []) = none ∧
    getTwitchStreamUrl cfgEx "https://twitch.tv/streamer"
      (Except.ok []) (Except.error "boom") = none := by
  constructor
  · exact (getTwitchStreamUrl_no_throw cfgEx "https://twitch.tv/videos/42"
      (Except.error "boom") (Except.ok [])).2.1 "boom" (by decide) rfl
  · exact (getTwitchStreamUrl_no_throw cfgEx "https://twitch.tv/streamer"
      (Except.ok []) (Except.error "boom")).2.2.1 "boom" (by decide) rfl

/-- C3: within one `playVideo` attempt, when the attempt downloaded a
temp file (non-live YouTube source with a successful download) the
unlink of exactly that file is invoked exactly once — whichever way the
playback section terminates (natural end, ffmpeg error, stream error,
user stop); in every other attempt, in particular for live YouTube
sources, no unlink is ever attempted. -/
theorem temp_cleanup_exactly_once (cfg : Config) (src : String)
    (title : Option String) (env : PlayEnv) (b : BotState) :
    unlinkCount (playVideo cfg src title env b).effects =
      (if (downloadedTemp src env).isSome then 1 else 0) ∧
    (∀ p, downloadedTemp src env = some p →
      unlinkCountFor p (playVideo cfg src title env b).effects = 1) ∧
    (isLiveAttempt src env = true →
      unlinkCount (playVideo cfg src title env b).effects = 0) := by
  obtain ⟨vi, lu, dl, oc⟩ := env
  by_cases hyt : isYouTubeSource src = true
  · cases vi with
    | thrown =>
      cases hc : b.ctrlAborted <;>
        simp [playVideo, downloadedTemp, isLiveAttempt, hyt, hc, finishAttempt,
          cleanupStreamStatus, unlinkCount, unlinkCountFor]
    | nullResult =>
      cases dl with
      | ok p0 =>
        cases oc <;>
          simp [playVideo, playPhase, downloadedTemp, isLiveAttempt, hyt,
            finishAttempt, cleanupStreamStatus, stopCommand, unlinkCount,
            unlinkCountFor]
      | err m =>
        simp [playVideo, downloadedTemp, isLiveAttempt, hyt, finishAttempt,
          cleanupStreamStatus, unlinkCount, unlinkCountFor]
    | info isLive =>
      cases isLive
      · cases dl with
        | ok p0 =>
          cases oc <;>
            simp [playVideo, playPhase, downloadedTemp, isLiveAttempt, hyt,
              finishAttempt, cleanupStreamStatus, stopCommand, unlinkCount,
              unlinkCountFor]
        | err m =>
          simp [playVideo, downloadedTemp, isLiveAttempt, hyt, finishAttempt,
            cleanupStreamStatus, unlinkCount, unlinkCountFor]
      · cases lu with
        | some u =>
          cases oc <;>
            simp [playVideo, playPhase, downloadedTemp, isLiveAttempt, hyt,
              finishAttempt, cleanupStreamStatus, stopCommand, unlinkCount,
              unlinkCountFor]
        | none =>
          simp [playVideo, downloadedTemp, isLiveAttempt, hyt, finishAttempt,
            cleanupStreamStatus, unlinkCount, unlinkCountFor]
  · have hyt2 : isYouTubeSource src = false := by simpa using hyt
    cases oc <;>
      simp [playVideo, playPhase, downloadedTemp, isLiveAttempt, hyt2,
        finishAttempt, cleanupStreamStatus, stopCommand, unlinkCount,
        unlinkCountFor]

/-- Witness for C3: a downloaded YouTube VOD attempt unlinks its temp
file exactly once; a live YouTube attempt never unlinks. -/
theorem temp_cleanup_exactly_once_witness :
    unlinkCountFor "/tmp/a.mp4"
      (playVideo cfgEx "https://youtube.com/watch?v=a" (some "T") envVodOk freshIdle).effects
      = 1 ∧
    unlinkCount
      (playVideo cfgEx "https://youtube.com/watch?v=a" (some "T")
        ⟨.info true, some "https://live.example/m3u8", .ok "/tmp/a.mp4", .naturalEnd⟩
        freshIdle).effects = 0 := by
  constructor
  · exact (temp_cleanup_exactly_once cfgEx "https://youtube.com/watch?v=a"
      (some "T") envVodOk freshIdle).2.1 "/tmp/a.mp4" (by decide)
  · exact (temp_cleanup_exactly_once cfgEx "https://youtube.com/watch?v=a"
      (some "T") ⟨.info true, some "https://live.example/m3u8", .ok "/tmp/a.mp4", .naturalEnd⟩
      freshIdle).2.2 (by decide)

/-- Counterexample for C2: a playback attempt that terminates through an
ffmpeg pipeline error emits ZERO terminal notifications — the error
handler (config.ts lines 1003-1008) only logs and aborts, and the
Finished message is suppressed because the signal is aborted — refuting
"exactly one terminal notification, never zero". -/
theorem terminal_notification_counterexample :
    terminalCount
      (playVideo cfgEx "http://host/v.mp4" (some "URL")
        envDirectFfmpegErr freshIdle).notifs = 0 ∧
    (playVideo cfgEx "http://host/v.mp4" (some "URL")
        envDirectFfmpegErr freshIdle).notifs = [Notif.playingMsg "URL"] := by
  decide

/-- C2 (amended): for every attempt whose resolution succeeds, a natural
end emits exactly one terminal notification (the Finished message); a
user stop emits exactly one (the Stopped success message, with Finished
suppressed); a pipeline or stream error emits NO terminal notification —
the failure is only logged. -/
theorem terminal_notification_amended (cfg : Config) (src : String)
    (title : Option String) (env : PlayEnv) (b : BotState)
    (hres : resolvesInput src env = true) :
    (env.outcome = .naturalEnd →
      terminalCount (playVideo cfg src title env b).notifs = 1 ∧
      Notif.finishedMsg ∈ (playVideo cfg src title env b).notifs) ∧
    (env.outcome = .userStop →
      terminalCount (playVideo cfg src title env b).notifs = 1 ∧
      Notif.successMsg "Stopped playing video." ∈ (playVideo cfg src title env b).notifs ∧
      Notif.finishedMsg ∉ (playVideo cfg src title env b).notifs) ∧
    ((env.outcome = .ffmpegError ∨ env.outcome = .streamError) →
      terminalCount (playVideo cfg src title env b).notifs = 0) := by
  obtain ⟨vi, lu, dl, oc⟩ := env
  by_cases hyt : isYouTubeSource src = true
  · cases vi with
    | thrown => simp [resolvesInput, hyt] at hres
    | nullResult =>
      cases dl with
      | ok p0 =>
        cases oc <;>
          simp [playVideo, playPhase, hyt, finishAttempt, cleanupStreamStatus,
            stopCommand, terminalCount, isTerminalNotif]
      | err m => simp [resolvesInput, hyt] at hres
    | info isLive =>
      cases isLive
      · cases dl with
        | ok p0 =>
          cases oc <;>
            simp [playVideo, playPhase, hyt, finishAttempt, cleanupStreamStatus,
              stopCommand, terminalCount, isTerminalNotif]
        | err m => simp [resolvesInput, hyt] at hres
      · cases lu with
        | some u =>
          cases oc <;>
            simp [playVideo, playPhase, hyt, finishAttempt, cleanupStreamStatus,
              stopCommand, terminalCount, isTerminalNotif]
        | none => simp [resolvesInput, hyt] at hres
  · have hyt2 : isYouTubeSource src = false := by simpa using hyt
    cases oc <;>
      simp [playVideo, playPhase, hyt2, finishAttempt, cleanupStreamStatus,
        stopCommand, terminalCount, isTerminalNotif]

/-- Witness for C2 (amended): a natural end of a direct-URL attempt
emits exactly the Finished message. -/
theorem terminal_notification_amended_witness :
    terminalCount
      (playVideo cfgEx "http://host/v.mp4" (some "URL")
        ⟨.nullResult, none, .err "unused", .naturalEnd⟩ freshIdle).notifs = 1 := by
  exact ((terminal_notification_amended cfgEx "http://host/v.mp4" (some "URL")
    ⟨.nullResult, none, .err "unused", .naturalEnd⟩ freshIdle (by decide)).1 rfl).1

/-- C6: for a YouTube source classified live, the downloader is bypassed
and the pipeline is started exactly once with the live manifest URL as
its input; when the live URL cannot be obtained, the attempt reports the
error, never starts the pipeline or the downloader, and ends with the
session state cleaned up (not joined, not playing). -/
theorem youtube_live_bypass (cfg : Config) (src : String)
    (title : Option String) (env : PlayEnv) (b : BotState)
    (hyt : isYouTubeSource src = true) (hlive : env.videoInfo = .info true) :
    (∀ u, env.liveUrl = some u →
      pipelineCount (playVideo cfg src title env b).effects = 1 ∧
      Effect.pipelineStart u ∈ (playVideo cfg src title env b).effects ∧
      downloadCallCount (playVideo cfg src title env b).effects = 0) ∧
    (env.liveUrl = none →
      (playVideo cfg src title env b).notifs =
        [Notif.errorMsg
          ("Failed to get live stream URL for `" ++ title.getD "YouTube live video" ++ "`.")] ∧
      pipelineCount (playVideo cfg src title env b).effects = 0 ∧
      downloadCallCount (playVideo cfg src title env b).effects = 0 ∧
      (playVideo cfg src title env b).state.status.joined = false ∧
      (playVideo cfg src title env b).state.status.playing = false) := by
  obtain ⟨vi, lu, dl, oc⟩ := env
  cases hlive
  constructor
  · intro u hu
    cases hu
    cases oc <;>
      simp [playVideo, playPhase, hyt, finishAttempt, cleanupStreamStatus,
        stopCommand, pipelineCount, downloadCallCount]
  · intro hu
    cases hu
    simp [playVideo, hyt, finishAttempt, cleanupStreamStatus,
      pipelineCount, downloadCallCount]

/-- Witness for C6: a live YouTube attempt feeds the manifest URL to the
pipeline and never calls the downloader. -/
theorem youtube_live_bypass_witness :
    Effect.pipelineStart "https://live.example/m3u8" ∈
      (playVideo cfgEx "https://youtube.com/watch?v=a" (some "T")
        ⟨.info true, some "https://live.example/m3u8", .ok "/x", .naturalEnd⟩
        freshIdle).effects := by
  exact ((youtube_live_bypass cfgEx "https://youtube.com/watch?v=a" (some "T")
    ⟨.info true, some "https://live.example/m3u8", .ok "/x", .naturalEnd⟩
    freshIdle (by decide) rfl).1 "https://live.example/m3u8" rfl).2.1

/-- Counterexample for C7: after a play attempt whose yt-dlp download
fails, the session-state record does NOT hold the same values as before
the command: `cleanupStreamStatus` runs and resets `channelInfo` from
the configured ids to empty strings. -/
theorem play_failure_isolation_counterexample :
    (playVideo cfgEx "https://youtube.com/watch?v=a" (some "T")
      envVodDlErr freshIdle).state.status ≠ freshIdle.status ∧
    (playVideo cfgEx "https://youtube.com/watch?v=a" (some "T")
      envVodDlErr freshIdle).state.status.channelInfo = ⟨"", "", ""⟩ ∧
    freshIdle.status.channelInfo = ⟨"guild1", "voice1", "cmd1"⟩ := by
  decide

/-- C7 (amended): a resolution failure (local video name not in the
catalog) rejects before touching anything and `playVideo` is never
invoked; a download failure never starts the transcoding pipeline and
leaves every session flag false (the session is still functionally
Idle), but it does run the cleanup routine, which resets `channelInfo`
to empty strings and `manualStop` to false — so the record need not be
bit-identical to its pre-command value. -/
theorem play_failure_isolation_amended :
    (∀ (st : StreamStatus) (name : Option String) (videos : List VideoEntry),
      st.joined = false →
      videos.find? (fun m => name = some m.name) = none →
      playCase st name videos = .rejected (.errorMsg "Video not found")) ∧
    (∀ (cfg : Config) (src : String) (title : Option String) (env : PlayEnv)
       (b : BotState) (m : String),
      isYouTubeSource src = true →
      takesDownloadBranch env = true →
      env.download = .err m →
      pipelineCount (playVideo cfg src title env b).effects = 0 ∧
      (playVideo cfg src title env b).state.status.joined = false ∧
      (playVideo cfg src title env b).state.status.joinsucc = false ∧
      (playVideo cfg src title env b).state.status.playing = false ∧
      (playVideo cfg src title env b).state.status.manualStop = false ∧
      (playVideo cfg src title env b).state.status.channelInfo = ⟨"", "", ""⟩) := by
  constructor
  · intro st name videos hj hf
    simp [playCase, hj, hf]
  · intro cfg src title env b m hyt hdl herr
    obtain ⟨vi, lu, dl, oc⟩ := env
    cases herr
    cases vi with
    | thrown => simp [takesDownloadBranch] at hdl
    | nullResult =>
      simp [playVideo, hyt, finishAttempt, cleanupStreamStatus, pipelineCount]
    | info isLive =>
      cases isLive
      · simp [playVideo, hyt, finishAttempt, cleanupStreamStatus, pipelineCount]
      · simp [takesDownloadBranch] at hdl

/-- Witness for C7 (amended): the concrete failing download of the
counterexample never starts the pipeline and ends with all flags false. -/
theorem play_failure_isolation_amended_witness :
    playCase freshStatus (some "nope") [⟨"My_Video", "videos/My_Video.mp4"⟩] =
      .rejected (.errorMsg "Video not found") ∧
    pipelineCount (playVideo cfgEx "https://youtube.com/watch?v=a" (some "T")
      envVodDlErr freshIdle).effects = 0 := by
  constructor
  · exact play_failure_isolation_amended.1 freshStatus (some "nope")
      [⟨"My_Video", "videos/My_Video.mp4"⟩] (by decide) (by decide)
  · exact (play_failure_isolation_amended.2 cfgEx "https://youtube.com/watch?v=a"
      (some "T") envVodDlErr freshIdle "network" (by decide) (by decide) rfl).1

/-- Counterexample for C4: a `stop` command processed while a play
attempt is awaiting its download does NOT reach the teardown routine:
`joined` is still false at that point (it is set only after `joinVoice`,
which the effect order below shows happens after the download), so the
stop case replies `**Already Stopped!**` and performs no teardown call. -/
theorem stop_reachability_counterexample :
    stopCommand (midDownloadState freshIdle) =
      (midDownloadState freshIdle, [Notif.errorMsg "**Already Stopped!**"], []) ∧
    (playVideo cfgEx "https://youtube.com/watch?v=a" (some "T")
      envVodOk freshIdle).effects.take 2 =
      [Effect.downloadCall "https://youtube.com/watch?v=a",
       Effect.joinVoice "guild1" "voice1"] := by
  decide

/-- C4 (amended): a `stop` command reaches the teardown routine
(controller abort, stream stop, voice leave, flags reset) exactly when
`streamStatus.joined` is true at the moment it is processed; `joined`
becomes true only after the download completes and `joinVoice` returns
(the downloader call precedes the voice join in every downloading
attempt), so a stop issued while a download is in flight is rejected
with `**Already Stopped!**` and triggers no teardown. -/
theorem stop_reachability_amended :
    (∀ b : BotState, b.status.joined = false →
      stopCommand b = (b, [Notif.errorMsg "**Already Stopped!**"], [])) ∧
    (∀ b : BotState, b.status.joined = true →
      stopCommand b =
        (⟨⟨false, false, false, true, ⟨"", "", ""⟩⟩, true⟩,
         [Notif.successMsg "Stopped playing video."],
         [Effect.abortController, Effect.stopStream, Effect.leaveVoice])) ∧
    (∀ (cfg : Config) (src : String) (title : Option String) (p : String)
       (oc : PlayPhaseEvent) (b : BotState),
      isYouTubeSource src = true →
      (playVideo cfg src title ⟨.info false, none, .ok p, oc⟩ b).effects.take 2 =
        [Effect.downloadCall src,
         Effect.joinVoice cfg.guildId cfg.videoChannelId]) := by
  refine ⟨?_, ?_, ?_⟩
  · intro b hj
    simp [stopCommand, hj]
  · intro b hj
    simp [stopCommand, hj]
  · intro cfg src title p oc b hyt
    cases oc <;>
      simp [playVideo, playPhase, hyt, finishAttempt, cleanupStreamStatus,
        stopCommand]

/-- Witness for C4 (amended): stop during playback tears down; stop at
the mid-download state is rejected. -/
theorem stop_reachability_amended_witness :
    stopCommand joinedBot =
      (⟨⟨false, false, false, true, ⟨"", "", ""⟩⟩, true⟩,
       [Notif.successMsg "Stopped playing video."],
       [Effect.abortController, Effect.stopStream, Effect.leaveVoice]) ∧
    stopCommand (midDownloadState freshIdle) =
      (midDownloadState freshIdle, [Notif.errorMsg "**Already Stopped!**"], []) := by
  constructor
  · exact stop_reachability_amended.2.1 joinedBot (by decide)
  · exact stop_reachability_amended.1 (midDownloadState freshIdle) (by decide)

/-- Counterexample for C1: the `ytplay` case performs NO
`streamStatus.joined` check — issued while a session is active it
proceeds straight to `playVideo`, which launches a second pipeline over
the active session instead of rejecting with an "already active"
signal. -/
theorem play_gate_counterexample :
    ytplayCase joinedStatus "some video"
      (some ("https://youtube.com/watch?v=abc", "Found Title")) =
      CmdOutcome.proceeds "https://youtube.com/watch?v=abc" (some "Found Title") ∧
    Effect.pipelineStart "/tmp/a.mp4" ∈
      (playVideo cfgEx "https://youtube.com/watch?v=abc" (some "Found Title")
        envVodOk joinedBot).effects := by
  decide

/-- C1 (amended): while a session is active (`joined` true) the `play`,
`playlink` and `jfplay` cases reject with the `Already joined` error and
mutate nothing, but the `ytplay` case has no such guard: with a
non-empty query and a successful search it proceeds to `playVideo`
regardless of the session state. -/
theorem play_gate_amended (st : StreamStatus) (h : st.joined = true) :
    (∀ name videos, playCase st name videos = .rejected (.errorMsg "Already joined")) ∧
    (∀ link, playlinkCase st link = .rejected (.errorMsg "Already joined")) ∧
    (∀ itemId surl, jfplayCase st true itemId surl =
      .rejected (.errorMsg "Already joined")) ∧
    (∀ (q : String) (r : String × String), ytplayCase st q (some r) =
      (if q = "" then .rejected (.errorMsg "Please provide a video title.")
       else .proceeds r.1 (some r.2))) := by
  refine ⟨?_, ?_, ?_, ?_⟩
  · intro name videos
    simp [playCase, h]
  · intro link
    simp [playlinkCase, h]
  · intro itemId surl
    simp [jfplayCase, h]
  · intro q r
    by_cases hq : q = "" <;> simp [ytplayCase, hq]

/-- Witness for C1 (amended): with an active session, `play` is
rejected while `ytplay` proceeds. -/
theorem play_gate_amended_witness :
    playCase joinedStatus (some "My_Video") [⟨"My_Video", "videos/My_Video.mp4"⟩] =
      .rejected (.errorMsg "Already joined") ∧
    ytplayCase joinedStatus "q" (some ("u", "t")) = .proceeds "u" (some "t") := by
  constructor
  · exact (play_gate_amended joinedStatus (by decide)).1 (some "My_Video")
      [⟨"My_Video", "videos/My_Video.mp4"⟩]
  · exact ((play_gate_amended joinedStatus (by decide)).2.2.2 "q" ("u", "t")).trans
      (by decide)

end StreamBot
